import Mathlib

/-!
Verification of the actr-ts native binding core: the cross-runtime workload
adapter, the marshalling of identifier/payload value types across the
JavaScript boundary, and the consume-once System → Node → Ref lifecycle chain.

The Rust sources embedded here are `src/types.rs`, `src/error.rs`,
`src/context.rs`, `src/workload.rs` and `src/runtime.rs`.  External
collaborators (the napi runtime, the actor runtime, the host's JavaScript
queue) are modelled as explicit behaviour parameters; cross-boundary
invocations are recorded in an event list so that "is invoked exactly once /
never invoked" properties are statable.
-/

namespace ActrTs

/-- Byte sequences crossing the boundary (`bytes::Bytes` on the native side,
napi `Buffer` on the host side; both conversions `to_vec` are byte-identical,
so a single type models both). -/
abbrev Bytes := List Nat

/-! ## types.rs: identifier & payload model -/

/-- `Realm`: numeric namespace (`realm_id: u32`). -/
structure Realm where
  realm_id : Nat
  deriving DecidableEq

/-- `ActrType`: capability descriptor `(manufacturer, name)`. -/
structure ActrType where
  manufacturer : String
  name : String
  deriving DecidableEq

/-- `actr_protocol::ActrId`: native-side id, `serial_number: u64`. -/
structure ProtoActrId where
  realm : Realm
  serial_number : Nat
  type : ActrType
  deriving DecidableEq

/-- napi-side `ActrId` from types.rs: `serial_number: i64` for JavaScript
number safety. -/
structure ActrId where
  realm : Realm
  serial_number : Int
  type : ActrType
  deriving DecidableEq

/-- Rust `v as i64` applied to a `u64` value `v < 2^64`: two's-complement
reinterpretation of the same 64 bits. -/
def u64_as_i64 (v : Nat) : Int :=
  if v < 2 ^ 63 then (v : Int) else (v : Int) - 2 ^ 64

/-- Rust `x as u64` applied to an `i64` value `x` with `-2^63 ≤ x < 2^63`:
two's-complement reinterpretation of the same 64 bits. -/
def i64_as_u64 (x : Int) : Nat :=
  (x % 2 ^ 64).toNat

/-- `impl From<actr_protocol::ActrId> for ActrId` (types.rs line 61):
field copies, with `id.serial_number as i64`. -/
def ActrId.fromProto (id : ProtoActrId) : ActrId :=
  { realm := id.realm
    serial_number := u64_as_i64 id.serial_number
    type := id.type }

/-- `impl From<ActrId> for actr_protocol::ActrId` (types.rs line 71):
field copies, with `id.serial_number as u64`. -/
def ActrId.toProto (id : ActrId) : ProtoActrId :=
  { realm := id.realm
    serial_number := i64_as_u64 id.serial_number
    type := id.type }

/-- `MetadataEntry`: ordered `(key, value)` string pair.  The protocol-side
and napi-side Rust types have identical fields; the conversions rebuild the
record field by field, as the source closures do. -/
structure MetadataEntry where
  key : String
  value : String
  deriving DecidableEq

/-- `actr_protocol::DataStream`: `sequence: u64`, optional `timestamp_ms: i64`. -/
structure ProtoDataStream where
  stream_id : String
  sequence : Nat
  payload : Bytes
  metadata : List MetadataEntry
  timestamp_ms : Option Int
  deriving DecidableEq

/-- napi-side `DataStream` from types.rs: `sequence: i64`, payload a `Buffer`. -/
structure DataStream where
  stream_id : String
  sequence : Int
  payload : Bytes
  metadata : List MetadataEntry
  timestamp_ms : Option Int
  deriving DecidableEq

/-- `impl From<actr_protocol::DataStream> for DataStream` (types.rs line 134). -/
def DataStream.fromProto (stream : ProtoDataStream) : DataStream :=
  { stream_id := stream.stream_id
    sequence := u64_as_i64 stream.sequence
    payload := stream.payload
    metadata := stream.metadata.map (fun e => { key := e.key, value := e.value })
    timestamp_ms := stream.timestamp_ms.map (fun t => t) }

/-- `impl From<DataStream> for actr_protocol::DataStream` (types.rs line 152). -/
def DataStream.toProto (stream : DataStream) : ProtoDataStream :=
  { stream_id := stream.stream_id
    sequence := i64_as_u64 stream.sequence
    payload := stream.payload
    metadata := stream.metadata.map (fun e => { key := e.key, value := e.value })
    timestamp_ms := stream.timestamp_ms.map (fun t => t) }

/-- `actr_protocol::RpcEnvelope`: `payload` is optional; absent denotes a
signal-only call. -/
structure RpcEnvelope where
  route_key : String
  payload : Option Bytes
  request_id : String
  deriving DecidableEq

/-- napi-side `RpcEnvelopeBridge` from types.rs: `payload` is a plain
`Buffer`, not optional. -/
structure RpcEnvelopeBridge where
  route_key : String
  payload : Bytes
  request_id : String
  deriving DecidableEq

/-- `impl From<actr_protocol::RpcEnvelope> for RpcEnvelopeBridge`
(types.rs line 182): an absent payload becomes `Buffer::from(vec![])`. -/
def RpcEnvelopeBridge.fromEnvelope (envelope : RpcEnvelope) : RpcEnvelopeBridge :=
  { route_key := envelope.route_key
    payload := match envelope.payload with
      | some p => p
      | none => []
    request_id := envelope.request_id }

/-! ## error.rs: error wrappers

`napi::Error::from_reason(s)` is a structure holding the reason string.
The lower-layer error types live in external crates; `format!` consumes only
their `Display` rendering, so the wrappers are modelled over that rendered
string. -/

/-- `napi::Error`, as built by `Error::from_reason`. -/
structure NapiError where
  reason : String
  deriving DecidableEq

/-- `error.rs: protocol_error_to_napi`, over the rendered `Display` text of
the `actr_protocol::ProtocolError`. -/
def protocol_error_to_napi (rendered : String) : NapiError :=
  { reason := "Protocol error: " ++ rendered }

/-- `error.rs: runtime_error_to_napi`, over the rendered `Display` text of
the `actr_runtime::RuntimeError`. -/
def runtime_error_to_napi (rendered : String) : NapiError :=
  { reason := "Runtime error: " ++ rendered }

/-- `error.rs: config_error_to_napi`, over the rendered `Display` text of
the `actr_config::ConfigError`. -/
def config_error_to_napi (rendered : String) : NapiError :=
  { reason := "Config error: " ++ rendered }

/-- The two `actr_protocol::ProtocolError` variants this crate constructs. -/
inductive ProtocolError where
  | invalidStateTransition (msg : String)
  | serializationError (msg : String)
  deriving DecidableEq

/-- The message string carried by a `ProtocolError` variant. -/
def ProtocolError.message : ProtocolError → String
  | .invalidStateTransition msg => msg
  | .serializationError msg => msg

/-! ## context.rs: context bridge -/

/-- `actr_runtime::context::RuntimeContext` (external): opaque cloneable
handle, modelled by an identifying payload. -/
structure RuntimeContext where
  ctx_id : Nat
  deriving DecidableEq

/-- `std::any::TypeId` as relevant here: either the id of the canonical
`RuntimeContext` or the id of some foreign context type. -/
inductive TypeId where
  | runtimeContext
  | foreign (type_name : String)
  deriving DecidableEq

/-- A value of some type `C: Context + 'static` handed to the bridge: either
the canonical `RuntimeContext` or a value of another implementation. -/
inductive HostCtx where
  | runtime (rc : RuntimeContext)
  | other (type_name : String)
  deriving DecidableEq

/-- `TypeId::of::<C>()` for the dynamic type of the context value. -/
def HostCtx.typeId : HostCtx → TypeId
  | .runtime _ => .runtimeContext
  | .other n => .foreign n

/-- `std::any::type_name::<C>()` for the dynamic type of the context value. -/
def HostCtx.typeName : HostCtx → String
  | .runtime _ => "actr_runtime::context::RuntimeContext"
  | .other n => n

/-- `ContextBridge`: wraps a cloned `RuntimeContext`. -/
structure ContextBridge where
  inner : RuntimeContext
  deriving DecidableEq

/-- The pointer reinterpretation
`&*(ctx as *const C as *const RuntimeContext)` followed by `.clone()`.
On a non-canonical context the source behaviour is undefined; the model
returns an arbitrary junk value there, and the theorems show this branch is
unreachable from `try_from_context`. -/
def castRuntimeContext : HostCtx → RuntimeContext
  | .runtime rc => rc
  | .other _ => { ctx_id := 0 }

/-- `ContextBridge::try_from_context` (context.rs line 16): `TypeId` identity
check first; only on a positive match is the reinterpretation performed. -/
def ContextBridge.try_from_context (ctx : HostCtx) : Except ProtocolError ContextBridge :=
  if ctx.typeId ≠ TypeId.runtimeContext then
    .error (.invalidStateTransition
      ("Context type mismatch: expected RuntimeContext, got " ++ ctx.typeName))
  else
    .ok { inner := castRuntimeContext ctx }

/-- `try_from_context` instrumented with a flag recording whether the
reinterpretation line was executed. -/
def ContextBridge.tryFromContextTraced (ctx : HostCtx) :
    Except ProtocolError ContextBridge × Bool :=
  if ctx.typeId ≠ TypeId.runtimeContext then
    (.error (.invalidStateTransition
      ("Context type mismatch: expected RuntimeContext, got " ++ ctx.typeName)), false)
  else
    (.ok { inner := castRuntimeContext ctx }, true)

/-! ## workload.rs: workload adapter & dispatcher -/

/-- A JavaScript property value, as far as `get_named_property::<Function>`
distinguishes: a callable (identified by a handle id) or a non-callable value. -/
inductive HostValue where
  | callable (fn_id : Nat)
  | notCallable
  deriving DecidableEq

/-- The host-supplied callback `Object`: its three named properties, each
possibly missing. -/
structure WorkloadObject where
  onStart : Option HostValue
  onStop : Option HostValue
  dispatch : Option HostValue
  deriving DecidableEq

/-- `callback.get_named_property::<Function>(property)`: fails when the
property is missing or its value is not callable, returning the napi
conversion error. -/
def get_named_function (v : Option HostValue) (property : String) :
    Except NapiError Nat :=
  match v with
  | some (.callable f) => .ok f
  | some .notCallable =>
      .error { reason := "Property " ++ property ++ " is not a function" }
  | none =>
      .error { reason := "Property " ++ property ++ " is missing" }

/-- `DynamicWorkload`: the three captured threadsafe-function handles, each
identified by the host callable it wraps. -/
structure DynamicWorkload where
  on_start_fn : Nat
  on_stop_fn : Nat
  dispatch_fn : Nat
  deriving DecidableEq

/-- `DynamicWorkload::new` (workload.rs line 24): resolves the three named
properties, then builds the threadsafe handles.  The second component lists
the host entry points invoked during construction; building the handles
captures them without calling them, so it is empty on every path. -/
def DynamicWorkload.new (callback : WorkloadObject) :
    Except NapiError DynamicWorkload × List Nat :=
  match get_named_function callback.onStart "onStart" with
  | .error e => (.error e, [])
  | .ok on_start =>
    match get_named_function callback.onStop "onStop" with
    | .error e => (.error e, [])
    | .ok on_stop =>
      match get_named_function callback.dispatch "dispatch" with
      | .error e => (.error e, [])
      | .ok dispatch =>
        (.ok { on_start_fn := on_start, on_stop_fn := on_stop, dispatch_fn := dispatch }, [])

/-- Whether the callback object exposes all three callable entry points. -/
def WorkloadObject.complete (callback : WorkloadObject) : Bool :=
  (match callback.onStart with | some (.callable _) => true | _ => false) &&
  (match callback.onStop with | some (.callable _) => true | _ => false) &&
  (match callback.dispatch with | some (.callable _) => true | _ => false)

/-- `napi::Status` as returned by a blocking `ThreadsafeFunction::call`:
whether the host queue accepted the handoff. -/
inductive TsfnStatus where
  | ok
  | closing
  | queueFull
  deriving DecidableEq

/-- `Workload::on_start` for `DynamicWorkload` (workload.rs line 72).
`accept` models the `Status` the blocking threadsafe-function call returns
for a given handle and argument; as in the source, that status is discarded.
The second component records the cross-boundary invocations made. -/
def DynamicWorkload.on_start (w : DynamicWorkload)
    (accept : Nat → ContextBridge → TsfnStatus) (ctx : HostCtx) :
    Except ProtocolError Unit × List (Nat × ContextBridge) :=
  match ContextBridge.try_from_context ctx with
  | .error e => (.error e, [])
  | .ok ctx_bridge =>
    let _status := accept w.on_start_fn ctx_bridge
    (.ok (), [(w.on_start_fn, ctx_bridge)])

/-- `Workload::on_stop` for `DynamicWorkload` (workload.rs line 79):
identical to `on_start` but through the `on_stop_fn` handle. -/
def DynamicWorkload.on_stop (w : DynamicWorkload)
    (accept : Nat → ContextBridge → TsfnStatus) (ctx : HostCtx) :
    Except ProtocolError Unit × List (Nat × ContextBridge) :=
  match ContextBridge.try_from_context ctx with
  | .error e => (.error e, [])
  | .ok ctx_bridge =>
    let _status := accept w.on_stop_fn ctx_bridge
    (.ok (), [(w.on_stop_fn, ctx_bridge)])

/-- How one `call_async` on the dispatch handle settles: `call_async` itself
fails (the cross-boundary call could not be scheduled), or it yields a
promise which rejects, or the promise resolves with response bytes.  The
carried `NapiError`'s reason is the failure's `to_string()` rendering. -/
inductive TsfnCallResult where
  | scheduleFailure (e : NapiError)
  | promiseRejected (e : NapiError)
  | promiseResolved (response : Bytes)
  deriving DecidableEq

/-- `DynamicDispatcher::dispatch` (workload.rs line 93).  `host` gives the
settlement of the `call_async` on a given handle and arguments.  The second
component records each invocation of the dispatch handle. -/
def DynamicDispatcher.dispatch (w : DynamicWorkload)
    (host : Nat → ContextBridge → RpcEnvelopeBridge → TsfnCallResult)
    (envelope : RpcEnvelope) (ctx : HostCtx) :
    Except ProtocolError Bytes × List (Nat × ContextBridge × RpcEnvelopeBridge) :=
  match ContextBridge.try_from_context ctx with
  | .error e => (.error e, [])
  | .ok ctx_bridge =>
    let envelope_bridge := RpcEnvelopeBridge.fromEnvelope envelope
    match host w.dispatch_fn ctx_bridge envelope_bridge with
    | .scheduleFailure e =>
        (.error (.serializationError e.reason),
          [(w.dispatch_fn, ctx_bridge, envelope_bridge)])
    | .promiseRejected e =>
        (.error (.serializationError e.reason),
          [(w.dispatch_fn, ctx_bridge, envelope_bridge)])
    | .promiseResolved response =>
        (.ok response, [(w.dispatch_fn, ctx_bridge, envelope_bridge)])

/-! ## runtime.rs: lifecycle chain -/

/-- `actr_runtime::ActrSystem` (external): opaque handle. -/
structure RuntimeSystem where
  sys_id : Nat
  deriving DecidableEq

/-- `actr_runtime::ActrNode<DynamicWorkload>` (external): the node the
runtime builds from a system and an attached workload. -/
structure RuntimeNode where
  base : RuntimeSystem
  workload : DynamicWorkload
  deriving DecidableEq

/-- `actr_runtime::ActrRef<DynamicWorkload>` (external): opaque handle. -/
structure RuntimeRef where
  ref_id : Nat
  deriving DecidableEq

/-- napi `ActrSystem` from runtime.rs: `inner: Option<actr_runtime::ActrSystem>`. -/
structure ActrSystem where
  inner : Option RuntimeSystem
  deriving DecidableEq

/-- napi `ActrNode` from runtime.rs: `inner: Option<actr_runtime::ActrNode>`. -/
structure ActrNode where
  inner : Option RuntimeNode
  deriving DecidableEq

/-- napi `ActrRef` from runtime.rs. -/
structure ActrRef where
  inner : RuntimeRef
  deriving DecidableEq

/-- `actr_runtime::ActrSystem::attach` (external, infallible): pairs the
system with the workload into a node. -/
def runtimeAttach (system : RuntimeSystem) (workload : DynamicWorkload) : RuntimeNode :=
  { base := system, workload := workload }

/-- `ActrSystem::attach` (runtime.rs line 36): `inner.take()` first — so the
handle is consumed before workload validation — then `DynamicWorkload::new`,
then the runtime attach.  Returns the result together with the mutated self. -/
def ActrSystem.attach (self : ActrSystem) (callback : WorkloadObject) :
    Except NapiError ActrNode × ActrSystem :=
  match self.inner with
  | none => (.error { reason := "System already consumed" }, self)
  | some system =>
    let taken : ActrSystem := { inner := none }
    match (DynamicWorkload.new callback).1 with
    | .error e => (.error e, taken)
    | .ok workload =>
      (.ok { inner := some (runtimeAttach system workload) }, taken)

/-- `ActrNode::start` (runtime.rs line 58): `inner.take()` first, then the
external `node.start()` — modelled by the behaviour `runtime_start`, whose
error side is the `ProtocolError`'s rendered text — mapped through
`protocol_error_to_napi`. -/
def ActrNode.start (self : ActrNode)
    (runtime_start : RuntimeNode → Except String RuntimeRef) :
    Except NapiError ActrRef × ActrNode :=
  match self.inner with
  | none => (.error { reason := "Node already started" }, self)
  | some node =>
    let taken : ActrNode := { inner := none }
    match runtime_start node with
    | .error e => (.error (protocol_error_to_napi e), taken)
    | .ok r => (.ok { inner := r }, taken)

/-! ## Sample values used by witnesses and counterexamples -/

/-- A callback object exposing all three callable entry points. -/
def wobjGood : WorkloadObject :=
  { onStart := some (.callable 1), onStop := some (.callable 2), dispatch := some (.callable 3) }

/-- A callback object whose `onStart` property is missing. -/
def wobjMissingStart : WorkloadObject :=
  { onStart := none, onStop := some (.callable 2), dispatch := some (.callable 3) }

/-- A freshly constructed system handle. -/
def sysFresh : ActrSystem := { inner := some { sys_id := 42 } }

/-- A sample workload adapter. -/
def wSample : DynamicWorkload := { on_start_fn := 1, on_stop_fn := 2, dispatch_fn := 3 }

/-- A sample runtime node. -/
def nodeSample : RuntimeNode := { base := { sys_id := 42 }, workload := wSample }

/-- A freshly constructed node handle. -/
def ndFresh : ActrNode := { inner := some nodeSample }

/-- A runtime-start behaviour that succeeds. -/
def startOk : RuntimeNode → Except String RuntimeRef := fun _ => .ok { ref_id := 9 }

/-- A runtime-start behaviour that fails with a rendered protocol error. -/
def startFail : RuntimeNode → Except String RuntimeRef := fun _ => .error "connection refused"

/-- A sample canonical runtime context. -/
def rcSample : RuntimeContext := { ctx_id := 7 }

/-- A sample RPC envelope with a present payload. -/
def envSample : RpcEnvelope :=
  { route_key := "route.a", payload := some [1, 2], request_id := "req-1" }

/-- A host queue that never accepts a blocking handoff. -/
def acceptRejecting : Nat → ContextBridge → TsfnStatus := fun _ _ => .closing

/-- A host dispatch behaviour whose promise resolves with fixed bytes. -/
def hostResolved : Nat → ContextBridge → RpcEnvelopeBridge → TsfnCallResult :=
  fun _ _ _ => .promiseResolved [7, 7]

/-! ## Helper lemmas -/

theorem u64_i64_roundtrip (v : Nat) (h : v < 2 ^ 64) :
    i64_as_u64 (u64_as_i64 v) = v := by
  simp only [u64_as_i64, i64_as_u64]
  split <;> omega

theorem metadata_map_self (l : List MetadataEntry) :
    l.map (fun e => { key := e.key, value := e.value }) = l := by
  induction l with
  | nil => rfl
  | cons hd tl ih => simp [ih]

theorem option_map_self (o : Option Int) : o.map (fun t => t) = o := by
  cases o <;> rfl

theorem try_from_context_runtime (rc : RuntimeContext) :
    ContextBridge.try_from_context (.runtime rc) = .ok { inner := rc } := rfl

/-- `Except` success test, for stating fail-fast contracts. -/
def exceptOk {ε α : Type} : Except ε α → Bool
  | .ok _ => true
  | .error _ => false

/-! ## Claims -/

/-- Claim C1: every attach call leaves the system's inner handle empty, and on
an empty handle every attach fails with "System already consumed" without
producing a node; likewise every start call leaves the node's inner handle
empty, and on an empty handle every start fails with "Node already started"
without producing a ref.  Hence after the take, all later calls fail. -/
theorem claim_C1 (sys : ActrSystem) (callback : WorkloadObject)
    (nd : ActrNode) (runtime_start : RuntimeNode → Except String RuntimeRef) :
    ((sys.attach callback).2.inner = none) ∧
    (∀ sys2 cb2, sys2.inner = none →
      ActrSystem.attach sys2 cb2 = (.error { reason := "System already consumed" }, sys2)) ∧
    ((nd.start runtime_start).2.inner = none) ∧
    (∀ nd2 rs2, nd2.inner = none →
      ActrNode.start nd2 rs2 = (.error { reason := "Node already started" }, nd2)) := by
  refine ⟨?_, ?_, ?_, ?_⟩
  · rcases sys with ⟨_ | s⟩
    · rfl
    · simp only [ActrSystem.attach]
      split <;> rfl
  · intro sys2 cb2 h
    rcases sys2 with ⟨i⟩
    cases h
    rfl
  · rcases nd with ⟨_ | n⟩
    · rfl
    · simp only [ActrNode.start]
      split <;> rfl
  · intro nd2 rs2 h
    rcases nd2 with ⟨i⟩
    cases h
    rfl

/-- Witness for C1: a second attach and a second start on consumed handles
fail with the respective errors. -/
theorem claim_C1_witness :
    ActrSystem.attach { inner := none } wobjGood =
      (.error { reason := "System already consumed" }, { inner := none }) ∧
    ActrNode.start { inner := none } startOk =
      (.error { reason := "Node already started" }, { inner := none }) :=
  ⟨(claim_C1 sysFresh wobjGood ndFresh startOk).2.1 { inner := none } wobjGood rfl,
   (claim_C1 sysFresh wobjGood ndFresh startOk).2.2.2 { inner := none } startOk rfl⟩

/-- Claim C9: attach takes the inner handle before validating the workload,
so a validation failure still consumes the system; start takes the handle
before the fallible runtime start, so a start failure still consumes the
node.  Later calls fail with the consumed-state errors. -/
theorem claim_C9 (sys : ActrSystem) (system : RuntimeSystem)
    (cb cb2 : WorkloadObject) (e : NapiError)
    (hsys : sys.inner = some system)
    (hbad : (DynamicWorkload.new cb).1 = .error e)
    (nd : ActrNode) (node : RuntimeNode)
    (rs rs2 : RuntimeNode → Except String RuntimeRef) (msg : String)
    (hnd : nd.inner = some node) (hfail : rs node = .error msg) :
    (sys.attach cb).1 = .error e ∧
    (ActrSystem.attach (sys.attach cb).2 cb2).1 =
      .error { reason := "System already consumed" } ∧
    (nd.start rs).1 = .error (protocol_error_to_napi msg) ∧
    (ActrNode.start (nd.start rs).2 rs2).1 =
      .error { reason := "Node already started" } := by
  rcases sys with ⟨si⟩
  cases hsys
  rcases nd with ⟨ni⟩
  cases hnd
  refine ⟨?_, ?_, ?_, ?_⟩ <;>
    simp [ActrSystem.attach, ActrNode.start, hbad, hfail]

/-- Witness for C9: a missing `onStart` makes the first attach fail yet
consume the system; a failing runtime start consumes the node. -/
theorem claim_C9_witness :
    (sysFresh.attach wobjMissingStart).1 =
      .error { reason := "Property onStart is missing" } ∧
    (ActrSystem.attach (sysFresh.attach wobjMissingStart).2 wobjGood).1 =
      .error { reason := "System already consumed" } ∧
    (ndFresh.start startFail).1 =
      .error { reason := "Protocol error: connection refused" } ∧
    (ActrNode.start (ndFresh.start startFail).2 startOk).1 =
      .error { reason := "Node already started" } :=
  claim_C9 sysFresh { sys_id := 42 } wobjMissingStart wobjGood
    { reason := "Property onStart is missing" } rfl rfl
    ndFresh nodeSample startFail startOk "connection refused" rfl rfl

/-- Claim C2: on the canonical context, dispatch invokes the host dispatch
handle exactly once with the bridged context and envelope; a resolved promise
yields exactly its bytes; a rejection or scheduling failure yields a
protocol-class serialization error carrying the failure's text. -/
theorem claim_C2 (rc : RuntimeContext) (w : DynamicWorkload)
    (host : Nat → ContextBridge → RpcEnvelopeBridge → TsfnCallResult)
    (envelope : RpcEnvelope) :
    (DynamicDispatcher.dispatch w host envelope (.runtime rc)).2 =
      [(w.dispatch_fn, { inner := rc }, RpcEnvelopeBridge.fromEnvelope envelope)] ∧
    (∀ response, host w.dispatch_fn { inner := rc }
        (RpcEnvelopeBridge.fromEnvelope envelope) = .promiseResolved response →
      (DynamicDispatcher.dispatch w host envelope (.runtime rc)).1 = .ok response) ∧
    (∀ e, host w.dispatch_fn { inner := rc }
        (RpcEnvelopeBridge.fromEnvelope envelope) = .promiseRejected e →
      (DynamicDispatcher.dispatch w host envelope (.runtime rc)).1 =
        .error (.serializationError e.reason)) ∧
    (∀ e, host w.dispatch_fn { inner := rc }
        (RpcEnvelopeBridge.fromEnvelope envelope) = .scheduleFailure e →
      (DynamicDispatcher.dispatch w host envelope (.runtime rc)).1 =
        .error (.serializationError e.reason)) := by
  refine ⟨?_, ?_, ?_, ?_⟩
  · rcases hh : host w.dispatch_fn { inner := rc } (RpcEnvelopeBridge.fromEnvelope envelope)
      with e | e | r <;>
      simp [DynamicDispatcher.dispatch, try_from_context_runtime, hh]
  · intro response hh
    simp [DynamicDispatcher.dispatch, try_from_context_runtime, hh]
  · intro e hh
    simp [DynamicDispatcher.dispatch, try_from_context_runtime, hh]
  · intro e hh
    simp [DynamicDispatcher.dispatch, try_from_context_runtime, hh]

/-- Witness for C2: a resolving host promise makes dispatch return exactly
the resolved bytes. -/
theorem claim_C2_witness :
    (DynamicDispatcher.dispatch wSample hostResolved envSample (.runtime rcSample)).1 =
      .ok [7, 7] :=
  (claim_C2 rcSample wSample hostResolved envSample).2.1 [7, 7] rfl

/-- Claim C3: on a non-canonical context type the bridge derivation returns
the structured type-mismatch error; the reinterpretation is executed only
when the TypeId identity check has succeeded, never on a non-canonical
context; the traced and plain derivations agree. -/
theorem claim_C3 (ctx : HostCtx) :
    (ctx.typeId ≠ TypeId.runtimeContext →
      ContextBridge.try_from_context ctx = .error (.invalidStateTransition
        ("Context type mismatch: expected RuntimeContext, got " ++ ctx.typeName))) ∧
    ((ContextBridge.tryFromContextTraced ctx).2 = true →
      ctx.typeId = TypeId.runtimeContext) ∧
    (ContextBridge.tryFromContextTraced ctx).1 = ContextBridge.try_from_context ctx := by
  rcases ctx with rc | n <;>
    simp [ContextBridge.try_from_context, ContextBridge.tryFromContextTraced,
      HostCtx.typeId, HostCtx.typeName]

/-- Witness for C3: deriving from a foreign context type fails with the
type-mismatch error. -/
theorem claim_C3_witness :
    ContextBridge.try_from_context (.other "MockContext") =
      .error (.invalidStateTransition
        "Context type mismatch: expected RuntimeContext, got MockContext") :=
  (claim_C3 (.other "MockContext")).1 (by decide)

/-- Claim C4: constructing the workload adapter invokes none of the three
entry points on any path, and it succeeds exactly when the callback object
exposes all three as callable properties — a missing or non-callable one
makes construction fail. -/
theorem claim_C4 (callback : WorkloadObject) :
    (DynamicWorkload.new callback).2 = [] ∧
    exceptOk (DynamicWorkload.new callback).1 = callback.complete := by
  rcases callback with ⟨os, ot, d⟩
  rcases os with _ | (f1 | _) <;> rcases ot with _ | (f2 | _) <;> rcases d with _ | (f3 | _) <;>
    simp [DynamicWorkload.new, get_named_function, WorkloadObject.complete, exceptOk]

/-- Counterexample to claim C5 as stated: the blocking cross-boundary handoff
of an `on_start` call is not accepted (the threadsafe function reports
`closing`), yet `on_start` still returns success — the status is discarded. -/
theorem claim_C5_counterexample :
    acceptRejecting wSample.on_start_fn { inner := rcSample } = TsfnStatus.closing ∧
    (wSample.on_start acceptRejecting (.runtime rcSample)).1 = .ok () :=
  ⟨rfl, rfl⟩

/-- Claim C5 (amended): if deriving the Context Surface fails, `on_start` and
`on_stop` return that error without invoking the boundary handle; if it
succeeds, the handle is invoked once and the call returns success
unconditionally — the handoff's acceptance status is discarded, so a
rejected handoff still reports success. -/
theorem claim_C5_amended (w : DynamicWorkload)
    (accept : Nat → ContextBridge → TsfnStatus) (ctx : HostCtx) :
    (∀ e, ContextBridge.try_from_context ctx = .error e →
      w.on_start accept ctx = (.error e, []) ∧
      w.on_stop accept ctx = (.error e, [])) ∧
    (∀ cb, ContextBridge.try_from_context ctx = .ok cb →
      w.on_start accept ctx = (.ok (), [(w.on_start_fn, cb)]) ∧
      w.on_stop accept ctx = (.ok (), [(w.on_stop_fn, cb)])) := by
  constructor
  · intro e he
    constructor <;> simp [DynamicWorkload.on_start, DynamicWorkload.on_stop, he]
  · intro cb hcb
    constructor <;> simp [DynamicWorkload.on_start, DynamicWorkload.on_stop, hcb]

/-- Witness for the amended C5: on a foreign context both lifecycle calls
short-circuit with the derivation error and invoke nothing. -/
theorem claim_C5_witness :
    wSample.on_start acceptRejecting (.other "MockCtx") =
      (.error (.invalidStateTransition
        "Context type mismatch: expected RuntimeContext, got MockCtx"), []) ∧
    wSample.on_stop acceptRejecting (.other "MockCtx") =
      (.error (.invalidStateTransition
        "Context type mismatch: expected RuntimeContext, got MockCtx"), []) :=
  (claim_C5_amended wSample acceptRejecting (.other "MockCtx")).1
    (.invalidStateTransition
      "Context type mismatch: expected RuntimeContext, got MockCtx") rfl

/-- Claim C6: for serial numbers at most `2^63 − 1` the ActrId boundary round
trip is the identity, and for sequences at most `2^63 − 1` the DataStream
boundary round trip preserves streamId, sequence, payload, timestampMs and
the metadata list exactly, order and duplicate keys included. -/
theorem claim_C6 (id : ProtoActrId) (hid : id.serial_number ≤ 2 ^ 63 - 1)
    (stream : ProtoDataStream) (hseq : stream.sequence ≤ 2 ^ 63 - 1) :
    (ActrId.fromProto id).toProto = id ∧
    ((DataStream.fromProto stream).toProto.stream_id = stream.stream_id ∧
     (DataStream.fromProto stream).toProto.sequence = stream.sequence ∧
     (DataStream.fromProto stream).toProto.payload = stream.payload ∧
     (DataStream.fromProto stream).toProto.timestamp_ms = stream.timestamp_ms ∧
     (DataStream.fromProto stream).toProto.metadata = stream.metadata) := by
  have hid64 : id.serial_number < 2 ^ 64 := by omega
  have hseq64 : stream.sequence < 2 ^ 64 := by omega
  refine ⟨?_, ?_, ?_, ?_, ?_, ?_⟩
  · rcases id with ⟨r, sn, t⟩
    simp [ActrId.fromProto, ActrId.toProto]
    exact u64_i64_roundtrip sn hid64
  all_goals
    simp [DataStream.fromProto, DataStream.toProto, metadata_map_self, option_map_self,
      u64_i64_roundtrip stream.sequence hseq64]

/-- Witness for C6: round trip at serial `2^63 − 1` and a stream with ordered
duplicate-key metadata. -/
theorem claim_C6_witness :
    (ActrId.fromProto
      { realm := { realm_id := 1 }, serial_number := 2 ^ 63 - 1,
        type := { manufacturer := "m", name := "n" } }).toProto =
      { realm := { realm_id := 1 }, serial_number := 2 ^ 63 - 1,
        type := { manufacturer := "m", name := "n" } } ∧
    (DataStream.fromProto
      { stream_id := "s1", sequence := 5, payload := [9],
        metadata := [{ key := "k", value := "a" }, { key := "k", value := "b" }],
        timestamp_ms := some 100 }).toProto.metadata =
      [{ key := "k", value := "a" }, { key := "k", value := "b" }] :=
  ⟨(claim_C6
      { realm := { realm_id := 1 }, serial_number := 2 ^ 63 - 1,
        type := { manufacturer := "m", name := "n" } } (by norm_num)
      { stream_id := "s1", sequence := 5, payload := [9],
        metadata := [{ key := "k", value := "a" }, { key := "k", value := "b" }],
        timestamp_ms := some 100 } (by norm_num)).1,
   (claim_C6
      { realm := { realm_id := 1 }, serial_number := 2 ^ 63 - 1,
        type := { manufacturer := "m", name := "n" } } (by norm_num)
      { stream_id := "s1", sequence := 5, payload := [9],
        metadata := [{ key := "k", value := "a" }, { key := "k", value := "b" }],
        timestamp_ms := some 100 } (by norm_num)).2.2.2.2.2⟩

/-- Counterexample to claim C7 as stated: an absent payload and a
present-but-empty payload produce the same boundary representation, so the
distinction is not preserved. -/
theorem claim_C7_counterexample :
    RpcEnvelopeBridge.fromEnvelope
        { route_key := "route.a", payload := none, request_id := "req-1" } =
      RpcEnvelopeBridge.fromEnvelope
        { route_key := "route.a", payload := some [], request_id := "req-1" } ∧
    (none : Option Bytes) ≠ some [] := by
  constructor
  · rfl
  · simp

/-- Claim C7 (amended): the boundary representation carries the route key and
request id unchanged and a present payload's bytes unchanged; an absent
payload is replaced by an empty byte buffer, so a signal-only call is
indistinguishable at the boundary from a present-but-empty payload. -/
theorem claim_C7_amended (envelope : RpcEnvelope) :
    (RpcEnvelopeBridge.fromEnvelope envelope).route_key = envelope.route_key ∧
    (RpcEnvelopeBridge.fromEnvelope envelope).request_id = envelope.request_id ∧
    (∀ p, envelope.payload = some p →
      (RpcEnvelopeBridge.fromEnvelope envelope).payload = p) ∧
    (envelope.payload = none →
      (RpcEnvelopeBridge.fromEnvelope envelope).payload = []) := by
  refine ⟨rfl, rfl, ?_, ?_⟩
  · intro p hp
    simp [RpcEnvelopeBridge.fromEnvelope, hp]
  · intro hp
    simp [RpcEnvelopeBridge.fromEnvelope, hp]

/-- Witness for the amended C7: a present payload crosses unchanged. -/
theorem claim_C7_witness :
    (RpcEnvelopeBridge.fromEnvelope envSample).payload = [1, 2] :=
  (claim_C7_amended envSample).2.2.1 [1, 2] rfl

/-- Claim C8: each error wrapper renders the lower-layer error's text as a
substring of the wrapped message (as a decomposition prefix ++ original ++
suffix), and the dispatcher's serialization wrapping carries the failure text
in its message. -/
theorem claim_C8 (rendered : String) :
    (∃ pre post, (protocol_error_to_napi rendered).reason = pre ++ rendered ++ post) ∧
    (∃ pre post, (runtime_error_to_napi rendered).reason = pre ++ rendered ++ post) ∧
    (∃ pre post, (config_error_to_napi rendered).reason = pre ++ rendered ++ post) ∧
    (∃ pre post, (ProtocolError.serializationError rendered).message =
      pre ++ rendered ++ post) := by
  refine ⟨⟨"Protocol error: ", "", ?_⟩, ⟨"Runtime error: ", "", ?_⟩,
    ⟨"Config error: ", "", ?_⟩, ⟨"", "", ?_⟩⟩ <;>
    simp [protocol_error_to_napi, runtime_error_to_napi, config_error_to_napi,
      ProtocolError.message]

/-- Claim C10: the unsigned-to-signed boundary cast is the two's-complement
reinterpretation — a value `v ≥ 2^63` crosses as the negative `v − 2^64` —
and the round trip is the identity on the full 64-bit range, for the scalar
cast and for the ActrId and DataStream conversions. -/
theorem claim_C10 (v : Nat) (hv : v < 2 ^ 64)
    (id : ProtoActrId) (hid : id.serial_number < 2 ^ 64)
    (stream : ProtoDataStream) (hs : stream.sequence < 2 ^ 64) :
    i64_as_u64 (u64_as_i64 v) = v ∧
    (2 ^ 63 ≤ v → u64_as_i64 v = (v : Int) - 2 ^ 64 ∧ u64_as_i64 v < 0) ∧
    (ActrId.fromProto id).toProto = id ∧
    (DataStream.fromProto stream).toProto = stream := by
  refine ⟨u64_i64_roundtrip v hv, ?_, ?_, ?_⟩
  · intro hge
    constructor
    · simp only [u64_as_i64]
      split <;> omega
    · simp only [u64_as_i64]
      split <;> omega
  · rcases id with ⟨r, sn, t⟩
    simp [ActrId.fromProto, ActrId.toProto]
    exact u64_i64_roundtrip sn hid
  · rcases stream with ⟨sid, sq, pl, md, ts⟩
    simp [DataStream.fromProto, DataStream.toProto, metadata_map_self, option_map_self]
    exact u64_i64_roundtrip sq hs

/-- Witness for C10: a serial above `2^63 − 1` crosses negative and round
trips losslessly. -/
theorem claim_C10_witness :
    i64_as_u64 (u64_as_i64 (2 ^ 63 + 5)) = 2 ^ 63 + 5 ∧
    u64_as_i64 (2 ^ 63 + 5) < 0 ∧
    (ActrId.fromProto
      { realm := { realm_id := 1 }, serial_number := 2 ^ 64 - 1,
        type := { manufacturer := "m", name := "n" } }).toProto =
      { realm := { realm_id := 1 }, serial_number := 2 ^ 64 - 1,
        type := { manufacturer := "m", name := "n" } } :=
  ⟨(claim_C10 (2 ^ 63 + 5) (by norm_num)
      { realm := { realm_id := 1 }, serial_number := 2 ^ 64 - 1,
        type := { manufacturer := "m", name := "n" } } (by norm_num)
      { stream_id := "s", sequence := 0, payload := [], metadata := [],
        timestamp_ms := none } (by norm_num)).1,
   ((claim_C10 (2 ^ 63 + 5) (by norm_num)
      { realm := { realm_id := 1 }, serial_number := 2 ^ 64 - 1,
        type := { manufacturer := "m", name := "n" } } (by norm_num)
      { stream_id := "s", sequence := 0, payload := [], metadata := [],
        timestamp_ms := none } (by norm_num)).2.1 (by norm_num)).2,
   (claim_C10 (2 ^ 63 + 5) (by norm_num)
      { realm := { realm_id := 1 }, serial_number := 2 ^ 64 - 1,
        type := { manufacturer := "m", name := "n" } } (by norm_num)
      { stream_id := "s", sequence := 0, payload := [], metadata := [],
        timestamp_ms := none } (by norm_num)).2.2.1⟩

end ActrTs
